import Mathlib

/-
Verification of the token-rate-limiter core (`token_bucket.py`,
function `limit_and_tokenize`) against its design specification.

Modelling conventions (shallow embedding):
* Python ints are `ℤ`, counts are `ℕ`, Python floats are modelled as exact
  rationals `ℚ`.
* The two external Redis keys are modelled explicitly: the config key's
  `limit` field as an `Option String` argument (read-only), and the usage
  key's fields as a `Usage` record threaded in and out of the function.
* The uncaught `ZeroDivisionError` that Python raises when the effective
  limit is `0` and the rejection branch divides by it is modelled by the
  `Except` error channel.
* `int(...)` string parsing is modelled by `pyIntParse` (optionally signed
  decimal digit string with surrounding whitespace); `round(x, 2)` is
  modelled by `pyRound2` (round half to even at two decimal places).
-/

namespace TokenBucket

/-- Digit-string accumulator used by `pyIntParse`: consumes decimal digits,
returning `none` as soon as a non-digit character appears. -/
def digitsToNat : List Char → ℕ → Option ℕ
  | [], acc => some acc
  | c :: rest, acc =>
    if c.isDigit then digitsToNat rest (acc * 10 + (c.toNat - 48)) else none

/-- Strip leading and trailing whitespace, as Python `int(str)` does before
parsing. -/
def pyStrip (cs : List Char) : List Char :=
  ((cs.dropWhile Char.isWhitespace).reverse.dropWhile Char.isWhitespace).reverse

/-- Model of Python `int(s)` on a string: optional sign followed by a
non-empty run of decimal digits, surrounding whitespace allowed; `none`
models the `ValueError` raised on any other input. -/
def pyIntParse (s : String) : Option ℤ :=
  match pyStrip s.data with
  | [] => none
  | '-' :: rest => if rest = [] then none else (digitsToNat rest 0).map (fun n => -(n : ℤ))
  | '+' :: rest => if rest = [] then none else (digitsToNat rest 0).map (fun n => (n : ℤ))
  | cs => (digitsToNat cs 0).map (fun n => (n : ℤ))

/-- Lines 28-32 of `token_bucket.py`: resolve `tokens_per_minute` from the
stored `limit` field.  `none` models a missing field, `some ""` an empty
(falsy) value; a truthy value is parsed with `int(...)`, and a parse
failure falls back to the default.  Note the source applies no sign or
positivity check to a successfully parsed value. -/
def resolveTokensPerMinute (limit_str : Option String) (default_tokens_per_minute : ℤ) : ℤ :=
  match limit_str with
  | none => default_tokens_per_minute
  | some s =>
    if s = "" then default_tokens_per_minute
    else (pyIntParse s).getD default_tokens_per_minute

/-- Round half to even at integer precision, as Python's `round`. -/
def roundHalfEven (q : ℚ) : ℤ :=
  if q - ⌊q⌋ < 1/2 then ⌊q⌋
  else if 1/2 < q - ⌊q⌋ then ⌊q⌋ + 1
  else if ⌊q⌋ % 2 = 0 then ⌊q⌋ else ⌊q⌋ + 1

/-- Model of Python `round(x, 2)`. -/
def pyRound2 (q : ℚ) : ℚ := (roundHalfEven (q * 100) : ℚ) / 100

/-- The mutable per-user usage record stored under the usage key:
fields `tokens` and `last_refill` (absent field modelled as `none`), plus
the key's TTL in seconds as last set by `EXPIRE` (`none` if never set). -/
structure Usage where
  tokens : Option ℚ
  last_refill : Option ℚ
  expire : Option ℕ
deriving DecidableEq

/-- The structured rejection dict returned on lines 53-59. -/
structure RejectInfo where
  error : String
  retry_after : ℚ
  tokens_requested : ℕ
  tokens_available : ℚ
  user_token_limit : ℤ
deriving DecidableEq

/-- The function's observable outcome: the token list passed through on
admission, or the structured rejection payload. -/
inductive Decision where
  | admitted (token_ids : List ℤ)
  | reject (info : RejectInfo)
deriving DecidableEq

/-- Uncaught Python exceptions the function can raise. -/
inductive PyError where
  | zeroDivision
deriving DecidableEq

/-- Lines 44-46 of `token_bucket.py`: the lazy continuous refill.
`refill = (elapsed / 60.0) * tokens_per_minute` and
`tokens_used = max(0, tokens_used - refill)`. -/
def refilledTokens (tokens_used : ℚ) (elapsed : ℚ) (tokens_per_minute : ℤ) : ℚ :=
  let refill := elapsed / 60 * (tokens_per_minute : ℚ)
  max 0 (tokens_used - refill)

/-- The post-refill, pre-request `tokens_used` value entering the admit
decision of a call with the given inputs. -/
def effectiveTokensUsed (limit_str : Option String) (usage : Usage)
    (default_tokens_per_minute now : ℤ) : ℚ :=
  refilledTokens (usage.tokens.getD 0)
    ((now : ℚ) - usage.last_refill.getD (now : ℚ))
    (resolveTokensPerMinute limit_str default_tokens_per_minute)

/-- Shallow embedding of `limit_and_tokenize` (lines 24-71 of
`token_bucket.py`).  `now` is the integer clock reading `int(time.time())`;
`limit_str` is what `hget(config_key, "limit")` returns; `usage` is the
stored usage record.  The result pairs the observable outcome with the
usage record as left in the store (rejection writes nothing; admission
overwrites `tokens` and `last_refill` and sets a 120-second TTL). -/
def limit_and_tokenize (token_ids : List ℤ) (limit_str : Option String)
    (usage : Usage) (default_tokens_per_minute : ℤ) (now : ℤ) :
    Except PyError (Decision × Usage) :=
  let token_count : ℕ := token_ids.length
  let tokens_per_minute : ℤ := resolveTokensPerMinute limit_str default_tokens_per_minute
  let tokens_used0 : ℚ := usage.tokens.getD 0
  let last_refill0 : ℚ := usage.last_refill.getD (now : ℚ)
  let elapsed : ℚ := (now : ℚ) - last_refill0
  let tokens_used : ℚ := refilledTokens tokens_used0 elapsed tokens_per_minute
  let last_refill : ℚ := (now : ℚ)
  if (tokens_per_minute : ℚ) < tokens_used + (token_count : ℚ) then
    let tokens_over : ℚ := tokens_used + (token_count : ℚ) - (tokens_per_minute : ℚ)
    if tokens_per_minute = 0 then
      .error .zeroDivision
    else
      .ok (.reject
        { error := "Rate limit exceeded",
          retry_after := pyRound2 (tokens_over / (tokens_per_minute : ℚ) * 60),
          tokens_requested := token_count,
          tokens_available := max 0 ((tokens_per_minute : ℚ) - tokens_used),
          user_token_limit := tokens_per_minute }, usage)
  else
    let tokens_used' : ℚ := tokens_used + (token_count : ℚ)
    .ok (.admitted token_ids,
      { tokens := some tokens_used', last_refill := some last_refill, expire := some 120 })

/-- The exact (un-rounded) retry-after value of a rejecting call, in
seconds: `(tokens_over / tokens_per_minute) * 60` before `round(_, 2)`. -/
def exactRetryAfter (token_count : ℕ) (limit_str : Option String) (usage : Usage)
    (default_tokens_per_minute now : ℤ) : ℚ :=
  let tpm : ℚ := (resolveTokensPerMinute limit_str default_tokens_per_minute : ℚ)
  (effectiveTokensUsed limit_str usage default_tokens_per_minute now + (token_count : ℚ) - tpm)
    / tpm * 60

/-- Dispatch lemma for the admit branch: whenever the post-refill usage plus
the request size does not exceed the effective limit, the call returns the
token list unchanged and writes the updated usage record with a 120-second
TTL. -/
theorem limit_and_tokenize_admitted (token_ids : List ℤ) (ls : Option String)
    (u : Usage) (d now : ℤ)
    (h : effectiveTokensUsed ls u d now + (token_ids.length : ℚ)
        ≤ (resolveTokensPerMinute ls d : ℚ)) :
    limit_and_tokenize token_ids ls u d now =
      .ok (.admitted token_ids,
        ⟨some (effectiveTokensUsed ls u d now + (token_ids.length : ℚ)),
         some (now : ℚ), some 120⟩) := by
  simp only [limit_and_tokenize, effectiveTokensUsed] at h ⊢
  rw [if_neg (not_lt.mpr h)]

/-- Dispatch lemma for the reject branch with a nonzero effective limit:
the structured rejection payload is returned and the usage record is left
untouched. -/
theorem limit_and_tokenize_reject (token_ids : List ℤ) (ls : Option String)
    (u : Usage) (d now : ℤ)
    (h : (resolveTokensPerMinute ls d : ℚ)
        < effectiveTokensUsed ls u d now + (token_ids.length : ℚ))
    (h0 : resolveTokensPerMinute ls d ≠ 0) :
    limit_and_tokenize token_ids ls u d now =
      .ok (.reject
        { error := "Rate limit exceeded",
          retry_after := pyRound2 (exactRetryAfter token_ids.length ls u d now),
          tokens_requested := token_ids.length,
          tokens_available :=
            max 0 ((resolveTokensPerMinute ls d : ℚ) - effectiveTokensUsed ls u d now),
          user_token_limit := resolveTokensPerMinute ls d }, u) := by
  simp only [limit_and_tokenize, effectiveTokensUsed, exactRetryAfter] at h ⊢
  rw [if_pos h, if_neg h0]

/-- Dispatch lemma for the crash: an over-limit request under a zero
effective limit raises `ZeroDivisionError` while computing `retry_after`. -/
theorem limit_and_tokenize_zeroDiv (token_ids : List ℤ) (ls : Option String)
    (u : Usage) (d now : ℤ)
    (h : (resolveTokensPerMinute ls d : ℚ)
        < effectiveTokensUsed ls u d now + (token_ids.length : ℚ))
    (h0 : resolveTokensPerMinute ls d = 0) :
    limit_and_tokenize token_ids ls u d now = .error .zeroDivision := by
  simp only [limit_and_tokenize, effectiveTokensUsed] at h ⊢
  rw [if_pos h, if_pos h0]

/-- C1 counterexample: the stored override `"-5"` is present, parseable and
non-positive, so by the claim the effective limit should be the default
`1000`; the code resolves it to `-5` instead (no sign check on line 30). -/
theorem C1_counterexample :
    pyIntParse "-5" = some (-5) ∧ (-5 : ℤ) ≤ 0 ∧
    resolveTokensPerMinute (some "-5") 1000 = -5 ∧
    resolveTokensPerMinute (some "-5") 1000 ≠ 1000 := by
  decide

/-- C1 (amended): the effective `tokens_per_minute` equals the stored
override exactly when it is present, non-empty and parseable — regardless
of sign; when it is absent, empty, or unparseable the caller-supplied
default is used, and the fallback is silent: the call result is identical
to that of a call with no stored override at all. -/
theorem C1_amended_fallback (u : Usage) (d : ℤ) (str : String) :
    (∀ v : ℤ, str ≠ "" → pyIntParse str = some v →
      resolveTokensPerMinute (some str) d = v) ∧
    (pyIntParse str = none →
      ∀ (token_ids : List ℤ) (now : ℤ),
        limit_and_tokenize token_ids (some str) u d now =
          limit_and_tokenize token_ids none u d now) ∧
    resolveTokensPerMinute none d = d := by
  refine ⟨?_, ?_, rfl⟩
  · intro v hne hp
    simp [resolveTokensPerMinute, hne, hp]
  · intro hp token_ids now
    have h1 : resolveTokensPerMinute (some str) d = resolveTokensPerMinute none d := by
      by_cases hne : str = ""
      · simp [resolveTokensPerMinute, hne]
      · simp [resolveTokensPerMinute, hne, hp]
    simp only [limit_and_tokenize]
    rw [h1]

/-- Witness for C1: a parseable positive override is used verbatim, and an
unparseable override behaves exactly like an absent one. -/
theorem C1_witness :
    resolveTokensPerMinute (some "250") 1000 = 250 ∧
    limit_and_tokenize [5] (some "bogus") ⟨none, none, none⟩ 1000 0 =
      limit_and_tokenize [5] none ⟨none, none, none⟩ 1000 0 :=
  ⟨(C1_amended_fallback ⟨none, none, none⟩ 1000 "250").1 250 (by decide) (by decide),
   (C1_amended_fallback ⟨none, none, none⟩ 1000 "bogus").2.1 (by decide) [5] 0⟩

/-- C8: with a positive limit and non-negative stored usage, the effective
`tokens_used` entering the admit decision is never negative, and strictly
decreases as `elapsed` increases, until it reaches the floor 0. -/
theorem C8_monotonic_refill (tokens_used e₁ e₂ : ℚ) (tokens_per_minute : ℤ)
    (_htok : 0 ≤ tokens_used) (hT : 0 < tokens_per_minute) :
    0 ≤ refilledTokens tokens_used e₁ tokens_per_minute ∧
    (e₁ < e₂ → 0 < refilledTokens tokens_used e₁ tokens_per_minute →
      refilledTokens tokens_used e₂ tokens_per_minute
        < refilledTokens tokens_used e₁ tokens_per_minute) := by
  constructor
  · exact le_max_left 0 _
  · intro hlt hpos
    simp only [refilledTokens] at hpos ⊢
    have hTq : (0:ℚ) < (tokens_per_minute : ℚ) := by exact_mod_cast hT
    have hx : 0 < tokens_used - e₁ / 60 * (tokens_per_minute : ℚ) := by
      rcases lt_max_iff.mp hpos with h | h
      · exact absurd h (lt_irrefl 0)
      · exact h
    have hgap : (0:ℚ) < (e₂ - e₁) / 60 * (tokens_per_minute : ℚ) :=
      mul_pos (div_pos (sub_pos.mpr hlt) (by norm_num)) hTq
    have hr : tokens_used - e₂ / 60 * (tokens_per_minute : ℚ)
        = (tokens_used - e₁ / 60 * (tokens_per_minute : ℚ))
          - (e₂ - e₁) / 60 * (tokens_per_minute : ℚ) := by ring
    rw [max_eq_right hx.le]
    exact max_lt hx (by linarith)

/-- Witness for C8: with limit 5 tokens/minute and 10 tokens of stored
debt, the effective usage is non-negative at elapsed 0 and strictly
smaller after 60 further seconds. -/
theorem C8_witness :
    0 ≤ refilledTokens 10 0 5 ∧ refilledTokens 10 60 5 < refilledTokens 10 0 5 := by
  obtain ⟨h1, h2⟩ := C8_monotonic_refill 10 0 60 5 (by norm_num) (by norm_num)
  refine ⟨h1, h2 (by norm_num) ?_⟩
  simp only [refilledTokens]
  norm_num

/-- C9: a stored limit field of `"0"` parses to the integer `0`, which the
code uses as the effective limit instead of falling back to the default;
any call with non-empty `token_ids` then takes the rejection branch and
raises an uncaught `ZeroDivisionError` computing `retry_after`, so the
function returns neither an admit nor a reject value. -/
theorem C9_zero_limit_crash (token_ids : List ℤ) (u : Usage) (d now : ℤ)
    (hne : token_ids ≠ []) :
    resolveTokensPerMinute (some "0") d = 0 ∧
    limit_and_tokenize token_ids (some "0") u d now = .error .zeroDivision := by
  have hp : pyIntParse "0" = some 0 := by decide
  have h0 : resolveTokensPerMinute (some "0") d = 0 := by
    simp [resolveTokensPerMinute, hp, show ("0" : String) ≠ "" by decide]
  refine ⟨h0, ?_⟩
  have hlen : (1:ℚ) ≤ (token_ids.length : ℚ) := by
    exact_mod_cast List.length_pos.mpr hne
  have heff : (0:ℚ) ≤ effectiveTokensUsed (some "0") u d now := by
    simp only [effectiveTokensUsed, refilledTokens]
    exact le_max_left 0 _
  refine limit_and_tokenize_zeroDiv token_ids (some "0") u d now ?_ h0
  rw [h0]
  push_cast
  linarith

/-- Witness for C9: one token against a stored `"0"` limit crashes. -/
theorem C9_witness :
    resolveTokensPerMinute (some "0") 1000 = 0 ∧
    limit_and_tokenize [7] (some "0") ⟨none, none, none⟩ 1000 0
      = .error .zeroDivision :=
  C9_zero_limit_crash [7] ⟨none, none, none⟩ 1000 0 (by decide)

/-- C4: boundary equality — when the post-refill `tokens_used` plus
`len(token_ids)` equals `tokens_per_minute` exactly, the request is
admitted; a rejection payload is produced only when that sum strictly
exceeds the limit. -/
theorem C4_boundary_equality (token_ids : List ℤ) (ls : Option String)
    (u : Usage) (d now : ℤ) :
    (effectiveTokensUsed ls u d now + (token_ids.length : ℚ)
        = (resolveTokensPerMinute ls d : ℚ) →
      ∃ u', limit_and_tokenize token_ids ls u d now = .ok (.admitted token_ids, u')) ∧
    (∀ info u', limit_and_tokenize token_ids ls u d now = .ok (.reject info, u') →
      (resolveTokensPerMinute ls d : ℚ)
        < effectiveTokensUsed ls u d now + (token_ids.length : ℚ)) := by
  constructor
  · intro heq
    exact ⟨_, limit_and_tokenize_admitted token_ids ls u d now heq.le⟩
  · intro info u' hres
    by_contra hnot
    push_neg at hnot
    rw [limit_and_tokenize_admitted token_ids ls u d now hnot] at hres
    simp at hres

/-- Witness for C4: a fresh user with limit 10 requesting exactly 10 tokens
is admitted. -/
theorem C4_witness :
    ∃ u', limit_and_tokenize (List.replicate 10 0) none ⟨none, none, none⟩ 10 0
      = .ok (.admitted (List.replicate 10 0), u') :=
  (C4_boundary_equality (List.replicate 10 0) none ⟨none, none, none⟩ 10 0).1
    (by norm_num [effectiveTokensUsed, refilledTokens, resolveTokensPerMinute])

/-- C5: every admitted call returns `token_ids` unchanged and persists to
the usage key exactly the pair `{tokens = post-refill tokens_used +
len(token_ids), last_refill = now}` with a fixed 120-second expiration. -/
theorem C5_admit_persists (token_ids : List ℤ) (ls : Option String)
    (u : Usage) (d now : ℤ)
    (h : effectiveTokensUsed ls u d now + (token_ids.length : ℚ)
        ≤ (resolveTokensPerMinute ls d : ℚ)) :
    limit_and_tokenize token_ids ls u d now =
      .ok (.admitted token_ids,
        { tokens := some (effectiveTokensUsed ls u d now + (token_ids.length : ℚ)),
          last_refill := some (now : ℚ),
          expire := some 120 }) :=
  limit_and_tokenize_admitted token_ids ls u d now h

/-- Witness for C5: a fresh user with default limit 1000 requesting 500
tokens is admitted and `{tokens = 500, last_refill = now, ttl = 120}` is
stored. -/
theorem C5_witness :
    limit_and_tokenize (List.replicate 500 3) none ⟨none, none, none⟩ 1000 0 =
      .ok (.admitted (List.replicate 500 3), ⟨some 500, some 0, some 120⟩) := by
  rw [C5_admit_persists (List.replicate 500 3) none ⟨none, none, none⟩ 1000 0
    (by norm_num [effectiveTokensUsed, refilledTokens, resolveTokensPerMinute])]
  norm_num [effectiveTokensUsed, refilledTokens, resolveTokensPerMinute]

/-- C6: a rejected call leaves the stored usage record untouched — no
write to `tokens` or `last_refill` and no expiration update, so rejection
consumes no tokens. -/
theorem C6_reject_no_write (token_ids : List ℤ) (ls : Option String)
    (u : Usage) (d now : ℤ) (info : RejectInfo) (u' : Usage)
    (h : limit_and_tokenize token_ids ls u d now = .ok (.reject info, u')) :
    u' = u := by
  rcases lt_or_ge ((resolveTokensPerMinute ls d : ℚ))
      (effectiveTokensUsed ls u d now + (token_ids.length : ℚ)) with hlt | hge
  · by_cases h0 : resolveTokensPerMinute ls d = 0
    · rw [limit_and_tokenize_zeroDiv token_ids ls u d now hlt h0] at h
      exact absurd h (by simp)
    · rw [limit_and_tokenize_reject token_ids ls u d now hlt h0] at h
      simp only [Except.ok.injEq, Prod.mk.injEq] at h
      exact h.2.symm
  · rw [limit_and_tokenize_admitted token_ids ls u d now hge] at h
    exact absurd h (by simp)

/-- Witness for C6: the over-limit request of the spec's scenario 2 is
rejected and the stored record `{tokens = 500, last_refill = 0}` is
returned to the store unchanged. -/
theorem C6_witness :
    (⟨some 500, some 0, none⟩ : Usage) = ⟨some 500, some 0, none⟩ :=
  C6_reject_no_write (List.replicate 600 0) none ⟨some 500, some 0, none⟩ 1000 0
    ⟨"Rate limit exceeded", 6, 600, 500, 1000⟩ ⟨some 500, some 0, none⟩ (by
      rw [limit_and_tokenize_reject (List.replicate 600 0) none
          ⟨some 500, some 0, none⟩ 1000 0
          (by norm_num [effectiveTokensUsed, refilledTokens, resolveTokensPerMinute])
          (by norm_num [resolveTokensPerMinute])]
      norm_num [effectiveTokensUsed, refilledTokens, resolveTokensPerMinute,
        exactRetryAfter, pyRound2, roundHalfEven])

/-- C7: every rejected call's payload carries
`retry_after = round(((tokens_used + len - limit) / limit) * 60, 2)` and
`tokens_available = max(0, limit - tokens_used)`, with `tokens_used` the
post-refill, pre-request value. -/
theorem C7_reject_payload (token_ids : List ℤ) (ls : Option String)
    (u : Usage) (d now : ℤ)
    (hover : (resolveTokensPerMinute ls d : ℚ)
        < effectiveTokensUsed ls u d now + (token_ids.length : ℚ))
    (h0 : resolveTokensPerMinute ls d ≠ 0) :
    limit_and_tokenize token_ids ls u d now =
      .ok (.reject
        { error := "Rate limit exceeded",
          retry_after := pyRound2
            ((effectiveTokensUsed ls u d now + (token_ids.length : ℚ)
                - (resolveTokensPerMinute ls d : ℚ))
              / (resolveTokensPerMinute ls d : ℚ) * 60),
          tokens_requested := token_ids.length,
          tokens_available :=
            max 0 ((resolveTokensPerMinute ls d : ℚ) - effectiveTokensUsed ls u d now),
          user_token_limit := resolveTokensPerMinute ls d }, u) := by
  rw [limit_and_tokenize_reject token_ids ls u d now hover h0]
  rfl

/-- Witness for C7: the spec's scenario 2 — limit 1000, post-refill usage
500, request 600 — rejects with `retry_after = 6.0` and
`tokens_available = 500`. -/
theorem C7_witness :
    limit_and_tokenize (List.replicate 600 0) none ⟨some 500, some 0, none⟩ 1000 0 =
      .ok (.reject ⟨"Rate limit exceeded", 6, 600, 500, 1000⟩,
        ⟨some 500, some 0, none⟩) := by
  rw [C7_reject_payload (List.replicate 600 0) none ⟨some 500, some 0, none⟩ 1000 0
    (by norm_num [effectiveTokensUsed, refilledTokens, resolveTokensPerMinute])
    (by norm_num [resolveTokensPerMinute])]
  norm_num [effectiveTokensUsed, refilledTokens, resolveTokensPerMinute,
    pyRound2, roundHalfEven]

/-- C10: every `tokens` value persisted by an admitted call lies between 0
and the effective `tokens_per_minute` of that call, inclusive. -/
theorem C10_persisted_bounded (token_ids : List ℤ) (ls : Option String)
    (u : Usage) (d now : ℤ) (l : List ℤ) (u' : Usage)
    (h : limit_and_tokenize token_ids ls u d now = .ok (.admitted l, u')) :
    ∃ w : ℚ, u'.tokens = some w ∧ 0 ≤ w ∧ w ≤ (resolveTokensPerMinute ls d : ℚ) := by
  rcases lt_or_ge ((resolveTokensPerMinute ls d : ℚ))
      (effectiveTokensUsed ls u d now + (token_ids.length : ℚ)) with hlt | hge
  · by_cases h0 : resolveTokensPerMinute ls d = 0
    · rw [limit_and_tokenize_zeroDiv token_ids ls u d now hlt h0] at h
      exact absurd h (by simp)
    · rw [limit_and_tokenize_reject token_ids ls u d now hlt h0] at h
      exact absurd h (by simp)
  · rw [limit_and_tokenize_admitted token_ids ls u d now hge] at h
    simp only [Except.ok.injEq, Prod.mk.injEq] at h
    obtain ⟨-, hu⟩ := h
    have heff : (0:ℚ) ≤ effectiveTokensUsed ls u d now := by
      simp only [effectiveTokensUsed, refilledTokens]
      exact le_max_left 0 _
    exact ⟨effectiveTokensUsed ls u d now + (token_ids.length : ℚ),
      by rw [← hu], add_nonneg heff (Nat.cast_nonneg _), hge⟩

/-- Witness for C10: the admitted request of the spec's scenario 1 persists
`tokens = 500`, which lies within `[0, 1000]`. -/
theorem C10_witness :
    ∃ w : ℚ, (Usage.mk (some 500) (some 0) (some 120)).tokens = some w ∧
      0 ≤ w ∧ w ≤ ((1000 : ℤ) : ℚ) :=
  C10_persisted_bounded (List.replicate 500 3) none ⟨none, none, none⟩ 1000 0
    (List.replicate 500 3) ⟨some 500, some 0, some 120⟩ (by
      rw [limit_and_tokenize_admitted (List.replicate 500 3) none ⟨none, none, none⟩ 1000 0
        (by norm_num [effectiveTokensUsed, refilledTokens, resolveTokensPerMinute])]
      norm_num [effectiveTokensUsed, refilledTokens, resolveTokensPerMinute])

/-- Arithmetic core of the retry analysis: if a call at clock `n₁` rejects
(`hcond`), the request fits under the limit (`hc`), and the elapsed time to
`n₂` covers the exact un-rounded retry-after value (`hwait`), then the
refill computed from the unchanged stored record at `n₂` brings the usage
low enough to admit. -/
theorem retry_refill_covers (tok lr c T n₁ n₂ : ℚ)
    (hT : 0 < T) (hc : c ≤ T)
    (_hcond : T < max 0 (tok - (n₁ - lr) / 60 * T) + c)
    (hwait : (max 0 (tok - (n₁ - lr) / 60 * T) + c - T) / T * 60 ≤ n₂ - n₁) :
    max 0 (tok - (n₂ - lr) / 60 * T) + c ≤ T := by
  set u₁ := max 0 (tok - (n₁ - lr) / 60 * T) with hu₁
  have hx : tok - (n₁ - lr) / 60 * T ≤ u₁ := le_max_right _ _
  have h1 : (u₁ + c - T) * 60 ≤ (n₂ - n₁) * T := by
    have h2 := mul_le_mul_of_nonneg_right hwait hT.le
    calc (u₁ + c - T) * 60 = (u₁ + c - T) / T * 60 * T := by field_simp
      _ ≤ (n₂ - n₁) * T := h2
  have hB : (n₂ - n₁) * T = 60 * ((n₂ - n₁) / 60 * T) := by ring
  have hmain : max 0 (tok - (n₂ - lr) / 60 * T) ≤ T - c := by
    refine max_le (by linarith) ?_
    have hsplit : tok - (n₂ - lr) / 60 * T
        = (tok - (n₁ - lr) / 60 * T) - (n₂ - n₁) / 60 * T := by ring
    rw [hsplit]
    linarith [hx, h1, hB]
  linarith [hmain]

/-- C2 counterexample: fresh user, effective limit 100 (positive), request
of 150 tokens at clock 0.  The call rejects with `retry_after = 30.0`;
re-running the same request exactly 30 seconds later — with no admitted
request in between, so the store is unchanged — rejects again rather than
admitting: a request larger than the limit can never be admitted, yet the
code returns a finite `retry_after` for it. -/
theorem C2_counterexample :
    (limit_and_tokenize (List.replicate 150 0) none ⟨none, none, none⟩ 100 0 =
      .ok (.reject ⟨"Rate limit exceeded", 30, 150, 100, 100⟩, ⟨none, none, none⟩)) ∧
    (limit_and_tokenize (List.replicate 150 0) none ⟨none, none, none⟩ 100 30 =
      .ok (.reject ⟨"Rate limit exceeded", 30, 150, 100, 100⟩, ⟨none, none, none⟩)) := by
  constructor <;>
  · rw [limit_and_tokenize_reject _ _ _ _ _
      (by norm_num [effectiveTokensUsed, refilledTokens, resolveTokensPerMinute])
      (by norm_num [resolveTokensPerMinute])]
    norm_num [effectiveTokensUsed, refilledTokens, resolveTokensPerMinute,
      exactRetryAfter, pyRound2, roundHalfEven]

/-- C2 (amended): for a rejected call with positive effective
`tokens_per_minute`, a stored `last_refill` value, and `len(token_ids)`
not exceeding the limit, re-running the check with the same number of
token ids — with no other admitted request in between, so the stored
record is unchanged — results in admission as soon as the elapsed
integer-clock time covers the exact un-rounded retry-after value
`(tokens_over / tokens_per_minute) * 60`.  (Waiting exactly the returned
`retry_after` need not suffice: it is rounded to 2 decimals, possibly
down, the clock is truncated to whole seconds, and a request larger than
the limit is never admitted at all.) -/
theorem C2_retry_admits (token_ids : List ℤ) (ls : Option String)
    (u : Usage) (d now₁ now₂ : ℤ) (lr₀ : ℚ)
    (hlr : u.last_refill = some lr₀)
    (hT : 0 < resolveTokensPerMinute ls d)
    (hc : (token_ids.length : ℚ) ≤ (resolveTokensPerMinute ls d : ℚ))
    (hrej : ∃ info, limit_and_tokenize token_ids ls u d now₁ = .ok (.reject info, u))
    (hwait : exactRetryAfter token_ids.length ls u d now₁ ≤ (now₂ : ℚ) - (now₁ : ℚ)) :
    ∃ u', limit_and_tokenize token_ids ls u d now₂ = .ok (.admitted token_ids, u') := by
  have hTq : (0:ℚ) < (resolveTokensPerMinute ls d : ℚ) := by exact_mod_cast hT
  obtain ⟨info, hres⟩ := hrej
  have hcond : (resolveTokensPerMinute ls d : ℚ)
      < effectiveTokensUsed ls u d now₁ + (token_ids.length : ℚ) := by
    by_contra hnot
    push_neg at hnot
    rw [limit_and_tokenize_admitted token_ids ls u d now₁ hnot] at hres
    simp at hres
  have heq₁ : effectiveTokensUsed ls u d now₁
      = max 0 (u.tokens.getD 0
          - ((now₁ : ℚ) - lr₀) / 60 * (resolveTokensPerMinute ls d : ℚ)) := by
    simp only [effectiveTokensUsed, refilledTokens, hlr, Option.getD_some]
  have heq₂ : effectiveTokensUsed ls u d now₂
      = max 0 (u.tokens.getD 0
          - ((now₂ : ℚ) - lr₀) / 60 * (resolveTokensPerMinute ls d : ℚ)) := by
    simp only [effectiveTokensUsed, refilledTokens, hlr, Option.getD_some]
  rw [heq₁] at hcond
  have hwait' : (max 0 (u.tokens.getD 0
        - ((now₁ : ℚ) - lr₀) / 60 * (resolveTokensPerMinute ls d : ℚ))
      + (token_ids.length : ℚ) - (resolveTokensPerMinute ls d : ℚ))
        / (resolveTokensPerMinute ls d : ℚ) * 60 ≤ (now₂ : ℚ) - (now₁ : ℚ) := by
    have := hwait
    simp only [exactRetryAfter, heq₁] at this
    exact this
  refine ⟨_, limit_and_tokenize_admitted token_ids ls u d now₂ ?_⟩
  rw [heq₂]
  exact retry_refill_covers (u.tokens.getD 0) lr₀ (token_ids.length : ℚ)
    (resolveTokensPerMinute ls d : ℚ) (now₁ : ℚ) (now₂ : ℚ) hTq hc hcond hwait'

/-- Witness for C2 (amended): usage 500 under limit 1000 at clock 0, a
600-token request rejects with exact retry-after 6 seconds; re-running at
clock 6 admits. -/
theorem C2_witness :
    ∃ u', limit_and_tokenize (List.replicate 600 0) none ⟨some 500, some 0, none⟩ 1000 6
      = .ok (.admitted (List.replicate 600 0), u') :=
  C2_retry_admits (List.replicate 600 0) none ⟨some 500, some 0, none⟩ 1000 0 6 0 rfl
    (by norm_num [resolveTokensPerMinute])
    (by norm_num [resolveTokensPerMinute])
    ⟨_, limit_and_tokenize_reject (List.replicate 600 0) none
        ⟨some 500, some 0, none⟩ 1000 0
        (by norm_num [effectiveTokensUsed, refilledTokens, resolveTokensPerMinute])
        (by norm_num [resolveTokensPerMinute])⟩
    (by norm_num [exactRetryAfter, effectiveTokensUsed, refilledTokens,
      resolveTokensPerMinute])

/-- C3: the working `last_refill` is advanced to `now` before the
admit/reject branch (so an admitted call persists `last_refill = now`), and
a rejected call persists nothing, so a retry after a rejection does not
re-credit, on top of state left by the rejected call, the elapsed window
the rejected call already credited: the retry's effective usage equals the
rejected call's post-refill usage minus exactly the refill of the window
elapsed since the rejected call. -/
theorem C3_no_recredit_on_retry (token_ids : List ℤ) (ls : Option String)
    (u : Usage) (d now₁ now₂ : ℤ) (lr₀ : ℚ)
    (hlr : u.last_refill = some lr₀)
    (hT : 0 ≤ resolveTokensPerMinute ls d)
    (hle : now₁ ≤ now₂)
    (_hrej : ∃ info, limit_and_tokenize token_ids ls u d now₁ = .ok (.reject info, u)) :
    effectiveTokensUsed ls u d now₂ =
      max 0 (effectiveTokensUsed ls u d now₁
        - ((now₂ : ℚ) - (now₁ : ℚ)) / 60 * (resolveTokensPerMinute ls d : ℚ)) := by
  have hTq : (0:ℚ) ≤ (resolveTokensPerMinute ls d : ℚ) := by exact_mod_cast hT
  have hd : (0:ℚ) ≤ (now₂ : ℚ) - (now₁ : ℚ) := by
    have : ((now₁ : ℤ) : ℚ) ≤ ((now₂ : ℤ) : ℚ) := by exact_mod_cast hle
    linarith
  have hb : (0:ℚ) ≤ ((now₂ : ℚ) - (now₁ : ℚ)) / 60 * (resolveTokensPerMinute ls d : ℚ) :=
    mul_nonneg (div_nonneg hd (by norm_num)) hTq
  simp only [effectiveTokensUsed, refilledTokens, hlr, Option.getD_some]
  have hsplit : u.tokens.getD 0
        - ((now₂ : ℚ) - lr₀) / 60 * (resolveTokensPerMinute ls d : ℚ)
      = (u.tokens.getD 0
          - ((now₁ : ℚ) - lr₀) / 60 * (resolveTokensPerMinute ls d : ℚ))
        - ((now₂ : ℚ) - (now₁ : ℚ)) / 60 * (resolveTokensPerMinute ls d : ℚ) := by
    ring
  rw [hsplit]
  rcases le_or_lt 0 (u.tokens.getD 0
      - ((now₁ : ℚ) - lr₀) / 60 * (resolveTokensPerMinute ls d : ℚ)) with hc | hc
  · rw [max_eq_right hc]
  · rw [max_eq_left hc.le, max_eq_left (by linarith), max_eq_left (by linarith)]

/-- Witness for C3: after the rejected 600-token request at clock 0 on
usage 500 under limit 1000, the effective usage at clock 30 equals the
rejected call's post-refill usage 500 minus the 30-second refill 500. -/
theorem C3_witness :
    effectiveTokensUsed none ⟨some 500, some 0, none⟩ 1000 30 = 0 := by
  have h := C3_no_recredit_on_retry (List.replicate 600 0) none
    ⟨some 500, some 0, none⟩ 1000 0 30 0 rfl
    (by norm_num [resolveTokensPerMinute])
    (by norm_num)
    ⟨_, limit_and_tokenize_reject (List.replicate 600 0) none
        ⟨some 500, some 0, none⟩ 1000 0
        (by norm_num [effectiveTokensUsed, refilledTokens, resolveTokensPerMinute])
        (by norm_num [resolveTokensPerMinute])⟩
  rw [h]
  norm_num [effectiveTokensUsed, refilledTokens, resolveTokensPerMinute]

end TokenBucket
